import Mathlib

/-!
Shallow embedding of the wuscraper repository (a Weather Underground
scraper): the cached fetch primitive and retry executor of
src/wuscraper.py, the tile hierarchy generator and batching helper of
src/util/mercator_tiles.py, and the per-unit exception handling of the
scrape loops of src/scrape.py.

Conventions used throughout:
- The filesystem cache is a map from paths to stored values.  The gzip/JSON
  serialization round-trip of load_json_gz/save_json_gz is modelled as the
  identity (the map stores the deserialized value directly); directory
  creation (os.makedirs) has no observable effect in this model.
- A Python callable that may raise is a function into Except E V; a
  callable with side effects threads an explicit state (used to count
  invocations).
- Python truthiness of a producer result is an explicit predicate
  truthy : V -> Bool supplied by the instantiation.
-/

deriving instance DecidableEq for Except

namespace Wuscraper

/-! ## Filesystem model -/

/-- The on-disk cache: a map from file paths to stored (deserialized)
artifacts.  `none` means no file exists at that path. -/
def FS (V : Type) : Type := String → Option V

/-- Writing an artifact at a path (save_json_gz under the identity
round-trip). -/
def fsWrite (fs : FS V) (path : String) (v : V) : FS V :=
  fun p => if p = path then some v else fs p

/-- os.remove: delete the artifact at a path. -/
def fsRemove (fs : FS V) (path : String) : FS V :=
  fun p => if p = path then none else fs p

/-! ## cached_eval (src/wuscraper.py lines 49-75) -/

/-- Result of a call to `cached_eval`: the filesystem afterwards, the
producer's state afterwards, and the returned value.  `Except.ok none`
models Python's implicit `return None` (the falsy-result branch);
`Except.error e` models an exception propagating out of `func()`. -/
structure CEResult (V σ E : Type) where
  fs : FS V
  st : σ
  res : Except E (Option V)

/-- `cached_eval(path, func, ...)`: if a file exists at `path`, read and
return it without invoking `func`; otherwise invoke `func()`; if the
result is truthy, write it to `path` and return it; if falsy, write
nothing and fall off the end of the function (returning None).  An
exception raised by `func()` propagates.  The producer `func` threads a
state `σ` so that its invocations are observable. -/
def cached_eval (fs : FS V) (path : String) (truthy : V → Bool)
    (func : σ → σ × Except E V) (s : σ) : CEResult V σ E :=
  match fs path with
  | some v => ⟨fs, s, .ok (some v)⟩
  | none =>
    match func s with
    | (s1, .error e) => ⟨fs, s1, .error e⟩
    | (s1, .ok v) =>
      if truthy v then ⟨fsWrite fs path v, s1, .ok (some v)⟩
      else ⟨fs, s1, .ok none⟩

/-! ## retry_x_times (src/wuscraper.py lines 78-94) -/

/-- Outcome of `retry_x_times`: `ok (some v)` is a normal return of `v`;
`ok none` is Python's implicit `return None` after exhausting attempts
with `raise_on_fail` false; `raised e` is an exception propagating to the
caller; `raisedNone` models `raise None` (a TypeError) when
`raise_on_fail` is true but no attempt ever ran (x = 0). -/
inductive RunResult (E V : Type) where
  | ok : Option V → RunResult E V
  | raised : E → RunResult E V
  | raisedNone : RunResult E V
deriving DecidableEq

/-- The `for i in range(x)` loop of `retry_x_times`, with `fuel` remaining
iterations and `calls` invocations of `func` performed so far.  The
attempt index passed to `func` makes successive invocations
distinguishable.  Returns the total number of invocations of `func`
together with the outcome. -/
def retryGo (func : Nat → Except E V) (allowed : E → Bool)
    (raise_on_fail : Bool) :
    Nat → Nat → Option E → Nat × RunResult E V
  | 0, calls, lastErr =>
    (calls,
      if raise_on_fail then
        match lastErr with
        | some e => .raised e
        | none => .raisedNone
      else .ok none)
  | fuel + 1, calls, _ =>
    match func calls with
    | .ok v => (calls + 1, .ok (some v))
    | .error e =>
      if allowed e then
        retryGo func allowed raise_on_fail fuel (calls + 1) (some e)
      else
        (calls + 1, .raised e)

/-- `retry_x_times(func, x, allowed_exceptions, raise_on_fail)`: attempt
`func` up to `x` times; an exception whose kind is in `allowed` is caught
and retried; any other exception propagates immediately.  After `x`
failed attempts, re-raise the last exception when `raise_on_fail` is set,
otherwise return None. -/
def retry_x_times (func : Nat → Except E V) (x : Nat) (allowed : E → Bool)
    (raise_on_fail : Bool) : Nat × RunResult E V :=
  retryGo func allowed raise_on_fail x 0 none

/-! ## Web Mercator tiles (src/util/mercator_tiles.py) -/

/-- A Web Mercator tile, as in mercantile.Tile. -/
structure Tile where
  x : Nat
  y : Nat
  z : Nat
deriving DecidableEq, BEq

/-- mercantile.children: the four children of a tile, in mercantile's
fixed order (upper-left, upper-right, lower-right, lower-left in tile
coordinates). -/
def children (t : Tile) : List Tile :=
  [ ⟨2 * t.x, 2 * t.y, t.z + 1⟩,
    ⟨2 * t.x + 1, 2 * t.y, t.z + 1⟩,
    ⟨2 * t.x + 1, 2 * t.y + 1, t.z + 1⟩,
    ⟨2 * t.x, 2 * t.y + 1, t.z + 1⟩ ]

/-- A nonnegative dyadic rational `num / 2 ^ exp`: the exact coordinate
arithmetic of tile extents (a tile bound at zoom z is a multiple of
1 / 2 ^ z). -/
structure Dy where
  num : Nat
  exp : Nat
deriving DecidableEq

/-- Exact comparison of dyadic rationals by cross-multiplication:
a.num / 2 ^ a.exp <= b.num / 2 ^ b.exp. -/
def dyLe (a b : Dy) : Bool :=
  decide (a.num * 2 ^ b.exp ≤ b.num * 2 ^ a.exp)

/-- An axis-aligned rectangle in the normalized Web Mercator unit square;
used to model tile extents (mercantile.feature) and boundary polygons
that are rectangles. -/
structure Rect where
  xmin : Dy
  ymin : Dy
  xmax : Dy
  ymax : Dy
deriving DecidableEq

/-- shapely's `.intersects` on two (closed) rectangles: true iff they
share at least one point, boundary touching included (DE-9IM
"not disjoint"). -/
def rectIntersects (a b : Rect) : Bool :=
  dyLe a.xmin b.xmax && dyLe b.xmin a.xmax &&
  dyLe a.ymin b.ymax && dyLe b.ymin a.ymax

/-- The geographic extent of a tile,
shapely.geometry.shape(mercantile.feature(tile)["geometry"]), expressed
in the normalized unit square (the lat/lng transform is monotone in both
axes, so intersection patterns between tile extents and a rectangular
boundary are preserved): the closed box
[x / 2^z, (x+1) / 2^z] x [y / 2^z, (y+1) / 2^z]. -/
def tileRect (t : Tile) : Rect :=
  ⟨⟨t.x, t.z⟩, ⟨t.y, t.z⟩, ⟨t.x + 1, t.z⟩, ⟨t.y + 1, t.z⟩⟩

/-- The inner pruning test of calculate_tiles_xyz: keep a child tile
unless a polygon was supplied and the child tile's extent does not
intersect it. -/
def keepTile (polygon : Option Rect) (t : Tile) : Bool :=
  match polygon with
  | none => true
  | some q => rectIntersects (tileRect t) q

def ROOT_TILE : Tile := ⟨0, 0, 0⟩

/-- The `for zoom in range(1, max_zoom + 1)` loop of calculate_tiles_xyz
after the first `z` iterations, read back as the defaultdict: `calcLoop
polygon z w` is `all_tiles_xyz[w]` once zooms `1..z` have been processed.
Zoom 1 expands the root tile `[(0, 0, 0)]`; zoom `z > 1` expands the
previous level's surviving tiles; a key never written reads as the empty
list. -/
def calcLoop (polygon : Option Rect) : Nat → Nat → List Tile
  | 0, _ => []
  | z + 1, w =>
    let input := if z + 1 = 1 then [ROOT_TILE] else calcLoop polygon z z
    if w = z + 1 then
      input.flatMap (fun t => (children t).filter (keepTile polygon))
    else calcLoop polygon z w

/-- `calculate_tiles_xyz(max_zoom, polygon)`: the per-zoom lists of tiles
intersecting the polygon (all tiles when no polygon is given), as a
function from zoom level to the list at that level. -/
def calculate_tiles_xyz (max_zoom : Nat) (polygon : Option Rect) :
    Nat → List Tile :=
  calcLoop polygon max_zoom

/-! ## batched (src/util/mercator_tiles.py lines 54-67)

The Python source calls `iter(iterable)` anew inside the `while` loop;
on an iterator argument (the only kind its callers pass, and the kind the
batching claim quantifies over) `iter` is the identity, so the loop
consumes the single underlying iterator.  The iterator is modelled as the
list of its remaining elements. -/

/-- The `while batch := tuple(islice(it, n))` loop: repeatedly take a
batch of up to `n` elements until the iterator is exhausted (the batch is
empty/falsy). -/
def batchedGo (n : Nat) (hn : 1 ≤ n) : List α → List (List α)
  | [] => []
  | a :: l => ((a :: l).take n) :: batchedGo n hn ((a :: l).drop n)
  termination_by l => l.length
  decreasing_by simp [List.length_drop]; omega

/-- `batched(iterable, n)`: raise ValueError when `n < 1`, otherwise
yield the successive batches. -/
def batched (l : List α) (n : Int) : Except String (List (List α)) :=
  if h : n < 1 then .error "n must be at least one"
  else .ok (batchedGo n.toNat (by omega) l)

/-! ## WUScraper.features (src/wuscraper.py lines 176-234)

The HTTP layer (requests.Session.get and Response.json) is opaque: it is
a stateful producer receiving the query parameters the source builds.
Times are modelled at whole-minute granularity (the source zeroes
microseconds and seconds before anything observable happens). -/

/-- The query parameters the features producer sends (the api key is a
fixed field of the scraper and omitted).  `timeStart`/`timeEnd` are the
two endpoints of the window formatted into the `time` parameter. -/
structure FeatureQuery where
  x : Int
  y : Int
  lod : Int
  tileSize : Int
  timeStart : Nat
  timeEnd : Nat
deriving DecidableEq

/-- Paths.FEATURES: "\x7boutput_directory\x7d/features/\x7bx\x7d_\x7by\x7d_\x7blod\x7d.json.gz".
The reference time is not part of the path. -/
def featuresPath (outDir : String) (x y lod : Int) : String :=
  outDir ++ "/features/" ++ toString x ++ "_" ++ toString y ++ "_" ++
    toString lod ++ ".json.gz"

/-- Flooring the reference time to the preceding 15-minute boundary
(`time -= timedelta(minutes=time.minute % 15, ...)`, in minutes). -/
def floor15 (t : Nat) : Nat := t - t % 15

/-- `WUScraper.features(x, y, lod, tile_size, time, time_diff)`: floor the
time, build the cache path from (x, y, lod) only, and delegate to
cached_eval with a producer performing the HTTP GET. -/
def features (outDir : String) (fs : FS V) (truthy : V → Bool)
    (get : σ → FeatureQuery → σ × Except E V) (x y lod tileSize : Int)
    (time timeDiff : Nat) (s : σ) : CEResult V σ E :=
  let t := floor15 time
  cached_eval fs (featuresPath outDir x y lod) truthy
    (fun s0 => get s0 ⟨x, y, lod, tileSize, t, t + timeDiff⟩) s

/-! ## WUScraper.daily (src/wuscraper.py lines 323-366) -/

/-- The parsed JSON body of a daily response: a dict holding an
"observations" list (other fields are irrelevant to the claims).  As a
nonempty Python dict it is always truthy, regardless of whether the list
is empty. -/
structure DailyResponse (α : Type) where
  observations : List α
deriving DecidableEq

/-- A nonempty dict is truthy in Python. -/
def dailyTruthy (_ : DailyResponse α) : Bool := true

/-- The exceptions WUScraper.daily can raise: one propagated from the
HTTP producer, RuntimeError("\x7bpath\x7d does not exist") under no_net,
RuntimeError("No observations"), or the TypeError from
`len(None["observations"])` when cached_eval returned None. -/
inductive DailyErr (E : Type) where
  | api : E → DailyErr E
  | noNet : DailyErr E
  | noObservations : DailyErr E
  | nonePayload : DailyErr E
deriving DecidableEq

/-- Zero-padded two-digit month, as strftime's %m renders it. -/
def pad2 (n : Nat) : String := if n < 10 then "0" ++ toString n else toString n

/-- Paths.DAILY: "\x7boutput_directory\x7d/daily/\x7bstation\x7d/\x7bmonth:%Y%m\x7d.json.gz". -/
def dailyPath (outDir station : String) (year month : Nat) : String :=
  outDir ++ "/daily/" ++ station ++ "/" ++ toString year ++ pad2 month ++
    ".json.gz"

/-- The tail of WUScraper.daily after the overwrite/no_net bookkeeping:
run cached_eval, then clear out empty observation lists — if the obtained
response's observation list is empty, remove the cache file and raise
RuntimeError("No observations").  The month-bound query parameters sent
by the producer are opaque here (captured inside `get`). -/
def dailyFetch (fs : FS (DailyResponse α)) (path : String)
    (get : σ → σ × Except E (DailyResponse α)) (s : σ) :
    FS (DailyResponse α) × σ × Except (DailyErr E) (DailyResponse α) :=
  let r := cached_eval fs path dailyTruthy (fun s0 => get s0) s
  match r.res with
  | .error e => (r.fs, r.st, .error (.api e))
  | .ok none => (r.fs, r.st, .error .nonePayload)
  | .ok (some resp) =>
    if resp.observations.length = 0 then
      (fsRemove r.fs path, r.st, .error .noObservations)
    else (r.fs, r.st, .ok resp)

/-- `WUScraper.daily(station, month, ..., overwrite, no_net)`: build the
monthly cache path; if a file exists there and overwrite is set, delete
it; if none exists and no_net is set, raise; then fetch through
cached_eval and reject empty observation lists. -/
def daily (outDir : String) (fs : FS (DailyResponse α)) (station : String)
    (year month : Nat) (overwrite no_net : Bool)
    (get : σ → σ × Except E (DailyResponse α)) (s : σ) :
    FS (DailyResponse α) × σ × Except (DailyErr E) (DailyResponse α) :=
  let path := dailyPath outDir station year month
  match fs path with
  | some _ =>
    dailyFetch (if overwrite then fsRemove fs path else fs) path get s
  | none =>
    if no_net then (fs, s, .error .noNet)
    else dailyFetch fs path get s

/-! ## WUScraper.get and the scrape loops (src/wuscraper.py lines 126-130,
src/scrape.py lines 277-362) -/

/-- The exception kinds the scrape path distinguishes:
requests.exceptions.ConnectionError (transport),
requests.exceptions.HTTPError (raise_for_status), and RuntimeError. -/
inductive ExcKind where
  | connectionError
  | httpError
  | runtimeError
deriving DecidableEq

/-- `WUScraper.get`: Response.raise_for_status raises HTTPError exactly
when the final status code is in 400..599; any other status (2xx, or a
3xx left unfollowed) returns the response. -/
def get (status : Nat) : Except ExcKind Nat :=
  if 400 ≤ status ∧ status < 600 then .error .httpError else .ok status

/-- `allowed_exceptions=(requests.exceptions.ConnectionError,)` passed to
retry_x_times by both the daily and historical loops of scrape.py. -/
def allowedScrape : ExcKind → Bool
  | .connectionError => true
  | _ => false

/-- The daily loop's `except RuntimeError: pass` (the HTTPError clause is
commented out in the source). -/
def dailyCaught : ExcKind → Bool
  | .runtimeError => true
  | _ => false

/-- The historical loop's
`except (RuntimeError, requests.exceptions.HTTPError): pass`. -/
def historicalCaught : ExcKind → Bool
  | .runtimeError => true
  | .httpError => true
  | _ => false

/-- One station/date unit of a scrape loop: `retry_x_times(op, 5,
(ConnectionError,))` inside a try block; `none` means the loop continues
past this unit, `some e` means the exception escapes the except clause
and aborts the loop. -/
def scrapeUnit (op : Nat → Except ExcKind V) (caught : ExcKind → Bool) :
    Option ExcKind :=
  match (retry_x_times op 5 allowedScrape false).2 with
  | .ok _ => none
  | .raised e => if caught e then none else some e
  | .raisedNone => none

/-- The per-unit loop of a scrape target: process units in order, skipping
units whose exception is caught; an uncaught exception aborts the loop.
Returns the number of units processed, or the aborting exception. -/
def processUnits (caught : ExcKind → Bool) :
    List (Nat → Except ExcKind V) → Except ExcKind Nat
  | [] => .ok 0
  | op :: rest =>
    match scrapeUnit op caught with
    | some e => .error e
    | none => (processUnits caught rest).map (· + 1)

/-! ## Concrete inputs used by counterexamples and witnesses -/

/-- A boundary that exactly covers one quadrant of the root tile: the
extent of tile (0, 0, 1). -/
def quadrantRect : Rect := tileRect ⟨0, 0, 1⟩

/-- A boundary strictly inside the interior of quadrant (0, 0, 1): the box
[1/8, 3/8] x [1/8, 3/8]. -/
def innerQuadrantRect : Rect := ⟨⟨1, 3⟩, ⟨1, 3⟩, ⟨3, 3⟩, ⟨3, 3⟩⟩

/-- A scrape unit whose producer raises HTTPError on every invocation. -/
def httpFailingOp : Nat → Except ExcKind Nat := fun _ => .error .httpError

/-- A scrape unit whose producer succeeds. -/
def okOp : Nat → Except ExcKind Nat := fun _ => .ok 0

/-! ## Helper lemmas -/

/-- A cache hit: when an artifact exists at the path, cached_eval returns
it and touches neither the filesystem nor the producer. -/
theorem cached_eval_hit {V σ E : Type} (fs : FS V) (path : String)
    (truthy : V → Bool) (func : σ → σ × Except E V) (s : σ) (w : V)
    (h : fs path = some w) :
    cached_eval fs path truthy func s = ⟨fs, s, .ok (some w)⟩ := by
  unfold cached_eval
  rw [h]

/-! ## C1: cached-fetch idempotence -/

/-- C1: if after the first call to cached_eval an artifact is present at
the key, then the first call returned exactly that artifact, the second
call returns the same content while leaving the filesystem and the
producer state untouched (the producer is not invoked), and when the key
was initially absent and the producer increments a counter, the counter
stands at s + 1 after the first call (and hence, the second call leaving
it untouched, after both calls). -/
theorem cached_eval_idempotent {V E : Type} (fs : FS V) (path : String)
    (truthy : V → Bool) (producer : Nat → Nat × Except E V) (s : Nat) (w : V)
    (hpersist : (cached_eval fs path truthy producer s).fs path = some w) :
    (cached_eval fs path truthy producer s).res = .ok (some w) ∧
    cached_eval (cached_eval fs path truthy producer s).fs path truthy
        producer (cached_eval fs path truthy producer s).st =
      ⟨(cached_eval fs path truthy producer s).fs,
       (cached_eval fs path truthy producer s).st, .ok (some w)⟩ ∧
    (fs path = none → (∀ n, (producer n).1 = n + 1) →
      (cached_eval fs path truthy producer s).st = s + 1) := by
  rcases hfs : fs path with _ | v
  · -- no pre-existing artifact: the producer ran
    rcases hp : producer s with ⟨s1, r⟩
    cases r with
    | error e =>
      have h1 : cached_eval fs path truthy producer s = ⟨fs, s1, .error e⟩ := by
        unfold cached_eval
        rw [hfs, hp]
      rw [h1] at hpersist
      simp only at hpersist
      rw [hfs] at hpersist
      exact absurd hpersist (by simp)
    | ok v =>
      by_cases ht : truthy v
      · have h1 : cached_eval fs path truthy producer s =
            ⟨fsWrite fs path v, s1, .ok (some v)⟩ := by
          unfold cached_eval
          rw [hfs, hp]
          simp [ht]
        rw [h1] at hpersist ⊢
        have hvw : v = w := by
          simpa [fsWrite] using hpersist
        subst hvw
        refine ⟨rfl, ?_, ?_⟩
        · exact cached_eval_hit _ _ _ _ _ _ (by simp [fsWrite])
        · intro _ hinc
          have hs1 := hinc s
          rw [hp] at hs1
          simpa using hs1
      · have h1 : cached_eval fs path truthy producer s = ⟨fs, s1, .ok none⟩ := by
          unfold cached_eval
          rw [hfs, hp]
          simp [ht]
        rw [h1] at hpersist
        simp only at hpersist
        rw [hfs] at hpersist
        exact absurd hpersist (by simp)
  · -- pre-existing artifact: both calls are cache hits
    have h1 := cached_eval_hit fs path truthy producer s v hfs
    rw [h1] at hpersist ⊢
    simp only at hpersist
    rw [hfs] at hpersist
    have hvw : v = w := Option.some.inj hpersist
    subst hvw
    refine ⟨rfl, cached_eval_hit _ _ _ _ _ _ hfs, ?_⟩
    intro hnone _
    exact absurd hnone (by simp)

/-- C1 witness: a fresh key, a counter-incrementing producer returning 7;
the hypothesis (an artifact is present after the first call) is
discharged concretely and the counter stands at 1 after both calls. -/
theorem cached_eval_idempotent_witness :
    ((cached_eval (fun _ => none : FS Nat) "k" (fun v => v != 0)
        (fun n => (n + 1, (.ok 7 : Except Unit Nat))) 0).fs "k" = some 7) ∧
    (cached_eval (fun _ => none : FS Nat) "k" (fun v => v != 0)
        (fun n => (n + 1, (.ok 7 : Except Unit Nat))) 0).st = 0 + 1 :=
  ⟨by decide,
   (cached_eval_idempotent (fun _ => none) "k" (fun v => v != 0)
      (fun n => (n + 1, .ok 7)) 0 7 (by decide)).2.2 rfl (fun n => rfl)⟩

/-! ## C9: falsy producer results are not persisted -/

/-- C9: when no artifact exists at the key and the producer returns
without raising but its result is falsy, cached_eval leaves the
filesystem unchanged (in particular nothing is persisted at the key) and
returns None. -/
theorem cached_eval_falsy_no_persist {V σ E : Type} (fs : FS V)
    (path : String) (truthy : V → Bool) (func : σ → σ × Except E V)
    (s s1 : σ) (v : V) (hfresh : fs path = none)
    (hp : func s = (s1, .ok v)) (hfalsy : truthy v = false) :
    cached_eval fs path truthy func s = ⟨fs, s1, .ok none⟩ ∧
    (cached_eval fs path truthy func s).fs path = none := by
  have h1 : cached_eval fs path truthy func s = ⟨fs, s1, .ok none⟩ := by
    unfold cached_eval
    rw [hfresh, hp]
    simp [hfalsy]
  exact ⟨h1, by rw [h1]; exact hfresh⟩

/-- C9 witness: a producer returning the falsy value 0 under Python
truthiness on a fresh key. -/
theorem cached_eval_falsy_no_persist_witness :
    ((fun _ => none : FS Nat) "k" = none) ∧
    (cached_eval (fun _ => none : FS Nat) "k" (fun v => v != 0)
        (fun n => (n + 1, (.ok 0 : Except Unit Nat))) 0).fs "k" = none :=
  ⟨rfl,
   (cached_eval_falsy_no_persist (fun _ => none) "k" (fun v => v != 0)
      (fun n => (n + 1, .ok 0)) 0 1 0 rfl rfl (by decide)).2⟩

/-! ## C2: retry bound -/

/-- Helper: when every attempt raises a recoverable failure and
raise_on_fail is false, the loop runs through all its remaining fuel and
falls off the end returning None. -/
theorem retryGo_allFail_noRaise {E V : Type} (func : Nat → Except E V)
    (es : Nat → E) (allowed : E → Bool)
    (hfail : ∀ i, func i = .error (es i))
    (hrec : ∀ i, allowed (es i) = true) :
    ∀ fuel calls lastErr,
      retryGo (V := V) func allowed false fuel calls lastErr =
        (calls + fuel, .ok none) := by
  intro fuel
  induction fuel with
  | zero =>
    intro calls lastErr
    simp [retryGo]
  | succ k ih =>
    intro calls lastErr
    rw [retryGo, hfail calls]
    simp only [hrec calls, if_true]
    rw [ih (calls + 1) (some (es calls))]
    congr 1
    omega

/-- Helper: when every attempt raises a recoverable failure and
raise_on_fail is true, the loop runs through all its fuel and re-raises
the failure of the last attempt. -/
theorem retryGo_allFail_raise {E V : Type} (func : Nat → Except E V)
    (es : Nat → E) (allowed : E → Bool)
    (hfail : ∀ i, func i = .error (es i))
    (hrec : ∀ i, allowed (es i) = true) :
    ∀ fuel calls lastErr,
      retryGo (V := V) func allowed true (fuel + 1) calls lastErr =
        (calls + fuel + 1, .raised (es (calls + fuel))) := by
  intro fuel
  induction fuel with
  | zero =>
    intro calls lastErr
    rw [retryGo, hfail calls]
    simp [retryGo, hrec calls]
  | succ k ih =>
    intro calls lastErr
    rw [retryGo, hfail calls]
    simp only [hrec calls, if_true]
    rw [ih (calls + 1) (some (es calls))]
    have h1 : calls + 1 + k = calls + (k + 1) := by omega
    rw [h1]

/-- C2: if the operation raises a recoverable failure on every attempt
and 1 <= x, retry_x_times invokes it exactly x times; with raise_on_fail
false it then returns None, with raise_on_fail true it re-raises the last
attempt's failure. -/
theorem retry_bound {E V : Type} (func : Nat → Except E V) (es : Nat → E)
    (allowed : E → Bool) (x : Nat) (hx : 1 ≤ x)
    (hfail : ∀ i, func i = .error (es i))
    (hrec : ∀ i, allowed (es i) = true) :
    retry_x_times (V := V) func x allowed false = (x, .ok none) ∧
    retry_x_times (V := V) func x allowed true = (x, .raised (es (x - 1))) := by
  obtain ⟨k, rfl⟩ : ∃ k, x = k + 1 := ⟨x - 1, by omega⟩
  constructor
  · have h := retryGo_allFail_noRaise func es allowed hfail hrec (k + 1) 0 none
    simpa [retry_x_times] using h
  · have h := retryGo_allFail_raise func es allowed hfail hrec k 0 none
    simpa [retry_x_times] using h

/-- C2 witness: an operation failing recoverably on every attempt, run
with max_attempts 3: three invocations, None without re-raise, the last
failure with re-raise. -/
theorem retry_bound_witness :
    (1 ≤ 3) ∧
    retry_x_times (V := Nat) (fun i => .error i) 3 (fun _ => true) false =
      (3, .ok none) ∧
    retry_x_times (V := Nat) (fun i => .error i) 3 (fun _ => true) true =
      (3, .raised 2) :=
  ⟨by decide,
   (retry_bound (fun i => .error i) (fun i => i) (fun _ => true) 3
      (by decide) (fun i => rfl) (fun i => rfl)).1,
   (retry_bound (fun i => .error i) (fun i => i) (fun _ => true) 3
      (by decide) (fun i => rfl) (fun i => rfl)).2⟩

/-! ## C6: non-recoverable short-circuit -/

/-- C6: if the first attempt raises a failure whose kind is not in the
recoverable set, the operation is invoked exactly once regardless of
max_attempts x >= 1 and of raise_on_fail, and the failure propagates
immediately. -/
theorem retry_nonrecoverable_once {E V : Type} (func : Nat → Except E V)
    (allowed : E → Bool) (raise_on_fail : Bool) (x : Nat) (e : E)
    (hx : 1 ≤ x) (h0 : func 0 = .error e) (hna : allowed e = false) :
    retry_x_times (V := V) func x allowed raise_on_fail = (1, .raised e) := by
  obtain ⟨k, rfl⟩ : ∃ k, x = k + 1 := ⟨x - 1, by omega⟩
  rw [retry_x_times, retryGo, h0]
  simp [hna]

/-- C6 witness: a non-recoverable failure with max_attempts 5: one
invocation, immediate propagation. -/
theorem retry_nonrecoverable_once_witness :
    (1 ≤ 5) ∧
    retry_x_times (V := Nat) (fun _ => .error 9) 5 (fun _ => false) false =
      (1, .raised 9) :=
  ⟨by decide,
   retry_nonrecoverable_once (fun _ => .error 9) (fun _ => false) false 5 9
     (by decide) rfl rfl⟩

/-! ## C3: tile determinism and counts -/

/-- C3: calculate_tiles_xyz(max_zoom=3, polygon=None) yields 4, 16 and 64
tiles at zooms 1, 2 and 3 (84 in total), with no duplicate (x, y, z)
triple anywhere, every tile carrying its own zoom level, every tile at
zooms 2 and 3 arising as a quad-tree child (x in \x7b2px, 2px+1\x7d, y in
\x7b2py, 2py+1\x7d) of a tile of the previous level in the result; and the
function is deterministic in (max_zoom, polygon). -/
theorem tiles_counts_deterministic :
    ((calculate_tiles_xyz 3 none) 1).length = 4 ∧
    ((calculate_tiles_xyz 3 none) 2).length = 16 ∧
    ((calculate_tiles_xyz 3 none) 3).length = 64 ∧
    ((calculate_tiles_xyz 3 none) 1 ++ (calculate_tiles_xyz 3 none) 2 ++
      (calculate_tiles_xyz 3 none) 3).length = 84 ∧
    ((calculate_tiles_xyz 3 none) 1 ++ (calculate_tiles_xyz 3 none) 2 ++
      (calculate_tiles_xyz 3 none) 3).Nodup ∧
    (((calculate_tiles_xyz 3 none) 1).all fun t => t.z == 1) = true ∧
    (((calculate_tiles_xyz 3 none) 2).all fun t => t.z == 2) = true ∧
    (((calculate_tiles_xyz 3 none) 3).all fun t => t.z == 3) = true ∧
    (((calculate_tiles_xyz 3 none) 2).all fun t =>
      ((calculate_tiles_xyz 3 none) 1).any fun p =>
        (children p).contains t) = true ∧
    (((calculate_tiles_xyz 3 none) 3).all fun t =>
      ((calculate_tiles_xyz 3 none) 2).any fun p =>
        (children p).contains t) = true ∧
    ∀ (max_zoom : Nat) (polygon : Option Rect),
      calculate_tiles_xyz max_zoom polygon =
        calculate_tiles_xyz max_zoom polygon :=
  ⟨by decide, by decide, by decide, by decide, by decide, by decide,
   by decide, by decide, by decide, by decide, fun _ _ => rfl⟩

/-! ## C7: boundary pruning -/

/-- C7 counterexample: with a boundary exactly covering quadrant
(0, 0, 1) of the root tile, calculate_tiles_xyz(max_zoom=2) yields 4
tiles at zoom 1 (not 1) and 9 tiles at zoom 2 (not 4): shapely's
intersects counts boundary touching, so the three quadrants sharing an
edge or corner with the boundary survive as well. -/
theorem boundary_pruning_counterexample :
    ((calculate_tiles_xyz 2 (some quadrantRect)) 1).length = 4 ∧
    ((calculate_tiles_xyz 2 (some quadrantRect)) 1).length ≠ 1 ∧
    ((calculate_tiles_xyz 2 (some quadrantRect)) 2).length = 9 ∧
    ((calculate_tiles_xyz 2 (some quadrantRect)) 2).length ≠ 4 := by
  decide

/-- C7 amended: because tile-boundary intersection counts touching, a
boundary exactly covering quadrant (0, 0, 1) keeps all 4 tiles at zoom 1
and 9 tiles at zoom 2 — the covered quadrant's four children together
with the five edge- or corner-touching tiles; the claimed counts (exactly
1 tile at zoom 1, its four children at zoom 2) hold for a boundary lying
strictly in the quadrant's interior. -/
theorem boundary_pruning_amended :
    (calculate_tiles_xyz 2 (some quadrantRect)) 1 =
      [⟨0, 0, 1⟩, ⟨1, 0, 1⟩, ⟨1, 1, 1⟩, ⟨0, 1, 1⟩] ∧
    ((calculate_tiles_xyz 2 (some quadrantRect)) 2).length = 9 ∧
    ((children ⟨0, 0, 1⟩).all fun c =>
      ((calculate_tiles_xyz 2 (some quadrantRect)) 2).contains c) = true ∧
    (calculate_tiles_xyz 2 (some innerQuadrantRect)) 1 = [⟨0, 0, 1⟩] ∧
    (calculate_tiles_xyz 2 (some innerQuadrantRect)) 2 =
      children ⟨0, 0, 1⟩ := by
  decide

/-! ## C4: daily-empty handling -/

/-- C4: whenever the daily operation obtains a response with an empty
observation list — freshly fetched (first conjunct: no cache file, the
producer returns it) or read from an existing cache artifact (second
conjunct) — it raises RuntimeError("No observations") and afterwards no
cache artifact remains at the (station, month) path; in the cached case
the pre-existing artifact is removed and the producer is not invoked. -/
theorem daily_empty_removes_cache {α σ E : Type} (outDir station : String)
    (year month : Nat) (fs : FS (DailyResponse α))
    (get : σ → σ × Except E (DailyResponse α)) (s : σ) :
    (∀ (overwrite : Bool) (s1 : σ) (resp : DailyResponse α),
      fs (dailyPath outDir station year month) = none →
      get s = (s1, .ok resp) → resp.observations = [] →
      daily outDir fs station year month overwrite false get s =
        (fsRemove (fsWrite fs (dailyPath outDir station year month) resp)
           (dailyPath outDir station year month), s1,
         .error .noObservations) ∧
      (daily outDir fs station year month overwrite false get s).1
        (dailyPath outDir station year month) = none) ∧
    (∀ (no_net : Bool) (resp : DailyResponse α),
      fs (dailyPath outDir station year month) = some resp →
      resp.observations = [] →
      daily outDir fs station year month false no_net get s =
        (fsRemove fs (dailyPath outDir station year month), s,
         .error .noObservations) ∧
      (daily outDir fs station year month false no_net get s).1
        (dailyPath outDir station year month) = none) := by
  constructor
  · intro overwrite s1 resp hfresh hget hempty
    have h1 : daily outDir fs station year month overwrite false get s =
        (fsRemove (fsWrite fs (dailyPath outDir station year month) resp)
           (dailyPath outDir station year month), s1,
         .error .noObservations) := by
      simp only [daily, dailyFetch, cached_eval, hfresh, hget, dailyTruthy,
        hempty, if_true, Bool.false_eq_true, if_false, List.length_nil]
    exact ⟨h1, by rw [h1]; simp [fsRemove]⟩
  · intro no_net resp hcached hempty
    have h1 : daily outDir fs station year month false no_net get s =
        (fsRemove fs (dailyPath outDir station year month), s,
         .error .noObservations) := by
      simp only [daily, dailyFetch, hcached, Bool.false_eq_true, if_false,
        cached_eval_hit _ _ _ _ _ _ hcached, hempty, List.length_nil,
        if_true]
    exact ⟨h1, by rw [h1]; simp [fsRemove]⟩

/-- C4 witness: both branches exercised concretely — a fresh fetch whose
producer returns \x7b"observations": []\x7d, and a pre-existing cached
artifact with an empty observation list; in both cases no artifact
remains at the monthly path. -/
theorem daily_empty_removes_cache_witness :
    ((fun _ => none : FS (DailyResponse Nat))
        (dailyPath "out" "KBOS" 2020 1) = none) ∧
    (daily "out" (fun _ => none : FS (DailyResponse Nat)) "KBOS" 2020 1
        false false (fun n => (n + 1, (.ok ⟨[]⟩ : Except Unit _))) 0).1
      (dailyPath "out" "KBOS" 2020 1) = none ∧
    (daily "out" (fun _ => some ⟨[]⟩ : FS (DailyResponse Nat)) "KBOS" 2020 1
        false false (fun n => (n + 1, (.ok ⟨[]⟩ : Except Unit _))) 0).1
      (dailyPath "out" "KBOS" 2020 1) = none :=
  ⟨rfl,
   ((daily_empty_removes_cache "out" "KBOS" 2020 1 (fun _ => none)
      (fun n => (n + 1, .ok ⟨[]⟩)) 0).1 false 1 ⟨[]⟩ rfl rfl rfl).2,
   ((daily_empty_removes_cache "out" "KBOS" 2020 1 (fun _ => some ⟨[]⟩)
      (fun n => (n + 1, .ok ⟨[]⟩)) 0).2 false ⟨[]⟩ rfl rfl).2⟩

/-! ## C5: feature cache-key collapse -/

/-- C5: the features cache path depends only on (x, y, lod) — not on the
reference time — so two feature calls with the same tile and
level-of-detail but different reference times t1 and t2 hit the same
artifact: starting from a filesystem with no artifact at that path and a
producer that counts its invocations, the first call fetches and stores
a result, and the second call returns that stored content with the
filesystem and the invocation counter unchanged (no new fetch). -/
theorem features_cache_key_collapse {V E : Type} (outDir : String)
    (fs : FS V) (truthy : V → Bool)
    (get : Nat → FeatureQuery → Nat × Except E V)
    (x y lod tileSize : Int) (t1 t2 timeDiff : Nat) (s : Nat) (v : V)
    (hfresh : fs (featuresPath outDir x y lod) = none)
    (hget : ∀ st q, get st q = (st + 1, .ok v))
    (htruthy : truthy v = true) :
    (features outDir fs truthy get x y lod tileSize t1 timeDiff s).res =
      .ok (some v) ∧
    (features outDir fs truthy get x y lod tileSize t1 timeDiff s).st =
      s + 1 ∧
    features outDir
        (features outDir fs truthy get x y lod tileSize t1 timeDiff s).fs
        truthy get x y lod tileSize t2 timeDiff
        (features outDir fs truthy get x y lod tileSize t1 timeDiff s).st =
      ⟨(features outDir fs truthy get x y lod tileSize t1 timeDiff s).fs,
       s + 1, .ok (some v)⟩ := by
  have h1 : features outDir fs truthy get x y lod tileSize t1 timeDiff s =
      ⟨fsWrite fs (featuresPath outDir x y lod) v, s + 1, .ok (some v)⟩ := by
    unfold features cached_eval
    rw [hfresh]
    simp [hget, htruthy]
  rw [h1]
  refine ⟨rfl, rfl, ?_⟩
  unfold features
  exact cached_eval_hit _ _ _ _ _ v (by simp [fsWrite])

/-- C5 witness: a fresh tile key with a counting producer; after a call
at time 17 and a second call at time 95, the artifact content is served
from cache and the producer ran exactly once. -/
theorem features_cache_key_collapse_witness :
    ((fun _ => none : FS Nat) (featuresPath "out" 3 5 8) = none) ∧
    (features "out" (fun _ => none : FS Nat) (fun v => v != 0)
        (fun st _ => (st + 1, (.ok 42 : Except Unit Nat)))
        3 5 8 512 17 15 0).st = 0 + 1 :=
  ⟨rfl,
   (features_cache_key_collapse "out" (fun _ => none) (fun v => v != 0)
      (fun st _ => (st + 1, .ok 42)) 3 5 8 512 17 95 15 0 42
      rfl (fun st q => rfl) (by decide)).2.1⟩

/-! ## C8: status-error taxonomy and per-unit skipping -/

/-- C8 counterexample: a unit whose producer raises HTTPError on every
attempt is skipped by the historical loop (the loop completes both
units), but in the daily loop the HTTPError escapes the
`except RuntimeError` clause and aborts the loop — the unit is not
skipped and the loop does not continue; moreover a 301 response is
non-2xx yet raises nothing in the client's get. -/
theorem status_error_counterexample :
    processUnits dailyCaught [httpFailingOp, okOp] = .error .httpError ∧
    processUnits dailyCaught [httpFailingOp, okOp] ≠ .ok 2 ∧
    processUnits historicalCaught [httpFailingOp, okOp] = .ok 2 ∧
    get 301 = .ok 301 := by
  decide

/-- C8 amended: the client's get raises HTTPError — a kind distinct from
connection errors — exactly for 4xx/5xx statuses (other statuses,
including non-2xx ones such as 301, raise nothing); both loops whitelist
only ConnectionError for retry, so an HTTPError-raising producer is
invoked once and a ConnectionError-raising one exactly 5 times; a
RuntimeError unit is skipped by both loops; an HTTPError unit is skipped
by the historical loop but aborts the daily loop. -/
theorem status_error_amended :
    (∀ status : Nat, 400 ≤ status → status < 600 →
      get status = .error .httpError) ∧
    (∀ status : Nat, status < 400 ∨ 600 ≤ status → get status = .ok status) ∧
    ExcKind.httpError ≠ ExcKind.connectionError ∧
    (∀ e, allowedScrape e = true ↔ e = .connectionError) ∧
    (∀ (V : Type) (op : Nat → Except ExcKind V),
      (∀ i, op i = .error .httpError) →
      (retry_x_times op 5 allowedScrape false) = (1, .raised .httpError) ∧
      scrapeUnit op historicalCaught = none ∧
      scrapeUnit op dailyCaught = some .httpError) ∧
    (∀ (V : Type) (op : Nat → Except ExcKind V),
      (∀ i, op i = .error .runtimeError) →
      scrapeUnit op dailyCaught = none ∧
      scrapeUnit op historicalCaught = none) ∧
    (∀ (V : Type) (op : Nat → Except ExcKind V),
      (∀ i, op i = .error .connectionError) →
      retry_x_times op 5 allowedScrape false = (5, .ok none)) ∧
    (∀ (V : Type) (rest : List (Nat → Except ExcKind V))
       (op : Nat → Except ExcKind V), (∀ i, op i = .error .httpError) →
      processUnits dailyCaught (op :: rest) = .error .httpError ∧
      processUnits historicalCaught (op :: rest) =
        (processUnits historicalCaught rest).map (· + 1)) := by
  have hhttp : ∀ (V : Type) (op : Nat → Except ExcKind V),
      (∀ i, op i = .error .httpError) →
      retry_x_times op 5 allowedScrape false = (1, .raised .httpError) :=
    fun v op hop =>
      retry_nonrecoverable_once op allowedScrape false 5 .httpError
        (by decide) (hop 0) rfl
  have hrt : ∀ (V : Type) (op : Nat → Except ExcKind V),
      (∀ i, op i = .error .runtimeError) →
      retry_x_times op 5 allowedScrape false = (1, .raised .runtimeError) :=
    fun v op hop =>
      retry_nonrecoverable_once op allowedScrape false 5 .runtimeError
        (by decide) (hop 0) rfl
  have hconn : ∀ (V : Type) (op : Nat → Except ExcKind V),
      (∀ i, op i = .error .connectionError) →
      retry_x_times op 5 allowedScrape false = (5, .ok none) :=
    fun v op hop =>
      (retry_bound op (fun _ => .connectionError) allowedScrape 5
        (by decide) hop (fun _ => rfl)).1
  refine ⟨?_, ?_, by decide, ?_, ?_, ?_, hconn, ?_⟩
  · intro status h4 h6
    unfold get
    rw [if_pos ⟨h4, h6⟩]
  · intro status h
    unfold get
    rw [if_neg (by omega)]
  · intro e
    cases e <;> simp [allowedScrape]
  · intro v op hop
    refine ⟨hhttp v op hop, ?_, ?_⟩ <;>
      simp [scrapeUnit, hhttp v op hop, historicalCaught, dailyCaught]
  · intro v op hop
    constructor <;>
      simp [scrapeUnit, hrt v op hop, historicalCaught, dailyCaught]
  · intro v rest op hop
    constructor
    · simp [processUnits, scrapeUnit, hhttp v op hop, dailyCaught]
    · simp [processUnits, scrapeUnit, hhttp v op hop, historicalCaught]

/-- C8 amended witness: the taxonomy at statuses 404 and 301 and the loop
behavior on concrete units, with every hypothesis discharged at a
concrete input. -/
theorem status_error_amended_witness :
    get 404 = .error .httpError ∧
    get 301 = .ok 301 ∧
    processUnits dailyCaught [httpFailingOp, okOp] = .error .httpError ∧
    processUnits historicalCaught [httpFailingOp, okOp] =
      (processUnits historicalCaught [okOp]).map (· + 1) :=
  ⟨status_error_amended.1 404 (by decide) (by decide),
   status_error_amended.2.1 301 (Or.inl (by decide)),
   (status_error_amended.2.2.2.2.2.2.2 Nat [okOp] httpFailingOp
      (fun _ => rfl)).1,
   (status_error_amended.2.2.2.2.2.2.2 Nat [okOp] httpFailingOp
      (fun _ => rfl)).2⟩

/-! ## C10: batching invariant -/

/-- Helper: the batches produced by the batching loop flatten back to the
input, are each nonempty of length at most n, and all but the last have
length exactly n. -/
theorem batchedGo_spec {α : Type} (n : Nat) (hn : 1 ≤ n) :
    ∀ l : List α,
      (batchedGo n hn l).flatten = l ∧
      (∀ b ∈ batchedGo n hn l, b ≠ [] ∧ b.length ≤ n) ∧
      (∀ b ∈ (batchedGo n hn l).dropLast, b.length = n)
  | [] => by
    simp [batchedGo]
  | a :: l => by
    have ih := batchedGo_spec n hn ((a :: l).drop n)
    rw [show batchedGo n hn (a :: l) =
        ((a :: l).take n) :: batchedGo n hn ((a :: l).drop n) from by
      rw [batchedGo]]
    refine ⟨?_, ?_, ?_⟩
    · simp [ih.1]
    · intro b hb
      rcases List.mem_cons.mp hb with hb | hb
      · subst hb
        constructor
        · simp [List.take_eq_nil_iff]
          omega
        · simp
      · exact ih.2.1 b hb
    · rcases hrest : batchedGo n hn ((a :: l).drop n) with _ | ⟨r, rs⟩
      · simp
      · have hne : (a :: l).drop n ≠ [] := by
          intro hnil
          rw [hnil] at hrest
          simp [batchedGo] at hrest
        have hlen : n < (a :: l).length := by
          by_contra hle
          exact hne (List.drop_eq_nil_of_le (by omega))
        intro b hb
        rw [List.dropLast_cons₂] at hb
        rcases List.mem_cons.mp hb with hb | hb
        · subst hb
          simp only [List.length_take, List.length_cons]
          have hlen1 : n < l.length + 1 := by simpa using hlen
          omega
        · rw [← hrest] at hb
          exact ih.2.2 b hb
  termination_by l => l.length
  decreasing_by simp [List.length_drop]; omega

/-- C10: on an iterator input, batched(it, n) with n >= 1 yields batches
that concatenate back to exactly the iterator's elements in order, each
nonempty of length at most n, with only the final batch allowed to be
shorter than n; and for every n < 1 it raises ValueError before yielding
any batch. -/
theorem batched_spec {α : Type} (l : List α) (n : Int) :
    (1 ≤ n → ∃ bs, batched l n = .ok bs ∧ bs.flatten = l ∧
      (∀ b ∈ bs, b ≠ [] ∧ b.length ≤ n.toNat) ∧
      (∀ b ∈ bs.dropLast, b.length = n.toNat)) ∧
    (n < 1 → batched l n = .error "n must be at least one") := by
  constructor
  · intro h1
    have hn : 1 ≤ n.toNat := by omega
    refine ⟨batchedGo n.toNat hn l, ?_, (batchedGo_spec n.toNat hn l).1,
      (batchedGo_spec n.toNat hn l).2.1, (batchedGo_spec n.toNat hn l).2.2⟩
    unfold batched
    rw [dif_neg (by omega)]
  · intro h1
    unfold batched
    rw [dif_pos h1]

/-- C10 witness: both branches at concrete inputs — n = 2 on a five
element iterator, and n = 0. -/
theorem batched_spec_witness :
    ((1 : Int) ≤ 2) ∧
    (∃ bs, batched [1, 2, 3, 4, 5] (2 : Int) = .ok bs ∧
      bs.flatten = [1, 2, 3, 4, 5] ∧
      (∀ b ∈ bs, b ≠ [] ∧ b.length ≤ (2 : Int).toNat) ∧
      (∀ b ∈ bs.dropLast, b.length = (2 : Int).toNat)) ∧
    ((0 : Int) < 1) ∧
    batched [1, 2, 3] (0 : Int) = .error "n must be at least one" :=
  ⟨by decide, (batched_spec [1, 2, 3, 4, 5] 2).1 (by decide),
   by decide, (batched_spec [1, 2, 3] 0).2 (by decide)⟩

end Wuscraper
